import Mathlib

/-!
Verification of the pdf-lib content-stream and drawing-helper layer.

The development shallowly embeds:
* `src/core/pdf-structures/PDFContentStream.ts` — the `PDFContentStream`
  class: constructor validation and flattening, the `Length` dictionary
  entry kept in sync by the array proxy, `operatorsBytesSize`, `bytesSize`
  and `copyBytesInto`.
* the drawing helper `drawRectangle` / `drawSquare` and the simple operator
  helpers (`pushGraphicsState`, `fillingRgbColor`, `rectangle`, `square`, …).

Operators and dictionaries reaching `PDFContentStream` are abstracted to
their serialization interface (a reported byte size and the bytes their
`copyBytesInto` writes), since the `PDFOperator` subclasses and
`PDFDictionary` live outside the sources under verification.  The drawing
helpers build concrete operators, so for them a symbolic operator type
mirrors the constructors used by `helpers/pdf-operators/simple`.
-/

namespace PdfLib

/-! ## Abstract serializable objects: operators and dictionaries

A `PDFOperator` is abstracted to the byte size its `bytesSize()` reports and
the bytes its `copyBytesInto` writes.  Likewise `PDFDictionary`. -/

/-- Abstraction of a `PDFOperator` instance: `size` is what `op.bytesSize()`
returns, `bytes` is what `op.copyBytesInto` writes into the buffer. -/
structure PDFOperator where
  size : Nat
  bytes : List Nat
deriving DecidableEq, Repr

/-- Abstraction of a `PDFDictionary`: `size` is what `dict.bytesSize()`
returns, `bytes` is what `dict.copyBytesInto` writes. -/
structure PDFDictionary where
  size : Nat
  bytes : List Nat
deriving DecidableEq, Repr

/-! ## JS values reaching the PDFContentStream constructor

The constructor is variadic over `Array<PDFOperator | PDFOperator[]>` but is
defensively validated with
`validateArr(operators, or(isInstance(PDFOperator), isArrayOf(PDFOperator)), …)`,
so its arguments are modelled as arbitrary JS values. -/

/-- A JS value passed as a variadic constructor argument: a `PDFOperator`
instance, an array of JS values, or anything else. -/
inductive JSValue where
  | operator : PDFOperator → JSValue
  | array : List JSValue → JSValue
  | other : JSValue

/-- The predicate `isInstance(PDFOperator)` from `utils/validate`. -/
def isInstancePDFOperator : JSValue → Bool
  | .operator _ => true
  | _ => false

/-- The predicate `isArrayOf(PDFOperator)` from `utils/validate`: an array
each of whose elements is a `PDFOperator` instance. -/
def isArrayOfPDFOperator : JSValue → Bool
  | .array l => l.all isInstancePDFOperator
  | _ => false

/-- The combinator `or(p, q)` from `utils`, applied to the two predicates
used by the `PDFContentStream` constructor. -/
def isOperatorOrOperatorArray (v : JSValue) : Bool :=
  isInstancePDFOperator v || isArrayOfPDFOperator v

/-- The helper `validateArr(elements, predicate, message)` from
`utils/validate`: throws (here: returns `Except.error message`) unless every
element satisfies the predicate. -/
def validateArr (elements : List JSValue) (predicate : JSValue → Bool)
    (message : String) : Except String Unit :=
  if elements.all predicate then .ok () else .error message

/-- Lodash `flatten`: flattens one level of nesting, keeping non-array
elements as they are. -/
def flatten1 (l : List JSValue) : List JSValue :=
  l.flatMap fun v =>
    match v with
    | .array xs => xs
    | v => [v]

/-- Extraction of the `PDFOperator` instances from a list of JS values
(after validation every element is one, so nothing is dropped). -/
def asOperators (l : List JSValue) : List PDFOperator :=
  l.flatMap fun v =>
    match v with
    | .operator op => [op]
    | _ => []

/-! ## PDFContentStream -/

/-- State of a `PDFContentStream`: its dictionary (abstracted), the current
`operators` array, and `lengthNumber`, the value of the `PDFNumber` stored
in the dictionary under the key `Length`. -/
structure PDFContentStream where
  dictionary : PDFDictionary
  operators : List PDFOperator
  lengthNumber : Nat
deriving DecidableEq, Repr

/-- The method `operatorsBytesSize`:
`this.operators.filter(Boolean).map((op) => op.bytesSize()).reduce(add, 0)`.
The model's operator list holds no holes or null entries, so the
`filter(Boolean)` keeps every element. -/
def operatorsBytesSize (ops : List PDFOperator) : Nat :=
  (ops.map PDFOperator.size).sum

/-- The `PDFContentStream` constructor: validates that every variadic
argument is a `PDFOperator` or an array of `PDFOperator`s (else it throws the
validation error), flattens the arguments one level into `this.operators`,
and sets the dictionary entry `Length` to `operatorsBytesSize()`. -/
def PDFContentStream.ofArgs (dictionary : PDFDictionary)
    (args : List JSValue) : Except String PDFContentStream := do
  let _ ← validateArr args isOperatorOrOperatorArray
    "PDFContentStream requires PDFOperators or PDFOperator[]s to be constructed."
  let ops := asOperators (flatten1 args)
  return { dictionary := dictionary, operators := ops,
           lengthNumber := operatorsBytesSize ops }

/-- A mutation of the `operators` array performed through the
`typedArrayProxy`: assignment to an index, or an append (`push`). -/
inductive StreamMutation where
  | setAt : Nat → PDFOperator → StreamMutation
  | push : PDFOperator → StreamMutation
deriving DecidableEq, Repr

/-- Modelled from the spec: `typedArrayProxy` (`utils/proxies`) is not among
the sources; per the spec the `Length` entry "must be invalidated and
recomputed whenever the operator sequence mutates", so the proxy's `set`
hook (`this.Length.number = this.operatorsBytesSize()`) runs after each
element assignment or append and recomputes `Length` from the current
array. -/
def applyMutation (s : PDFContentStream) : StreamMutation → PDFContentStream
  | .setAt i op =>
    let ops := s.operators.set i op
    { s with operators := ops, lengthNumber := operatorsBytesSize ops }
  | .push op =>
    let ops := s.operators ++ [op]
    { s with operators := ops, lengthNumber := operatorsBytesSize ops }

/-- The method `bytesSize`:
`dictionary.bytesSize() + 1 + 7 + operatorsBytesSize() + 10`
(the comments in the source label the constants as `"\n"`, `"stream\n"` and
`\nendstream`). -/
def PDFContentStream.bytesSize (s : PDFContentStream) : Nat :=
  s.dictionary.size + 1 + 7 + operatorsBytesSize s.operators + 10

/-- Byte codes of the string `"\nstream\n"` written after the dictionary. -/
def streamDelimiterBytes : List Nat :=
  [10, 115, 116, 114, 101, 97, 109, 10]

/-- Byte codes of the string `"\nendstream"` written at the end. -/
def endstreamDelimiterBytes : List Nat :=
  [10, 101, 110, 100, 115, 116, 114, 101, 97, 109]

/-- The method `copyBytesInto`, modelled as the list of bytes it writes:
the dictionary's bytes, then `"\nstream\n"`, then — threading the buffer
through `reduce` as the source does — each operator's bytes in order, then
`"\nendstream"`. -/
def PDFContentStream.copyBytesInto (s : PDFContentStream) : List Nat :=
  (s.operators.foldl (fun remaining op => remaining ++ op.bytes)
    (s.dictionary.bytes ++ streamDelimiterBytes)) ++ endstreamDelimiterBytes

/-! ## Symbolic content-stream operators for the drawing helpers

The drawing helpers of `helpers/pdf-operators` build concrete operator
instances through `helpers/pdf-operators/simple`; each of those wrappers
produces one operator class instance, modelled here as a constructor.
Operands are JS numbers, modelled as rationals. -/

/-- A content-stream operator as produced by the simple operator helpers:
the constructor mirrors the PDF operator keyword. -/
inductive PDFOp where
  | q
  | Q
  | rg (red green blue : ℚ)
  | RG (red green blue : ℚ)
  | w (width : ℚ)
  | re (x y width height : ℚ)
  | h
  | f
  | S
  | B
deriving DecidableEq, Repr

/-- `pushGraphicsState = () => q.operator`. -/
def pushGraphicsState : PDFOp := .q

/-- `popGraphicsState = () => Q.operator`. -/
def popGraphicsState : PDFOp := .Q

/-- `fillingRgbColor = rg.of`. -/
def fillingRgbColor (red green blue : ℚ) : PDFOp := .rg red green blue

/-- `strokingRgbColor = RG.of`. -/
def strokingRgbColor (red green blue : ℚ) : PDFOp := .RG red green blue

/-- `lineWidth = w.of`. -/
def lineWidth (width : ℚ) : PDFOp := .w width

/-- `rectangle = re.of`. -/
def rectangle (x y width height : ℚ) : PDFOp := .re x y width height

/-- `square = (xPos, yPos, size) => rectangle(xPos, yPos, size, size)`. -/
def square (xPos yPos size : ℚ) : PDFOp := rectangle xPos yPos size size

/-- `closePath = () => h.operator`. -/
def closePath : PDFOp := .h

/-- `fill = () => f.operator`. -/
def fill : PDFOp := .f

/-- `stroke = () => S.operator`. -/
def stroke : PDFOp := .S

/-- `fillAndStroke = () => B.operator`. -/
def fillAndStroke : PDFOp := .B

/-! ## JS glue used by the drawing helpers -/

/-- JS `v || d` on an optional number: `undefined` and `0` are falsy, any
other number is returned as is. -/
def jsOrNum (v : Option ℚ) (d : ℚ) : ℚ :=
  match v with
  | none => d
  | some x => if x = 0 then d else x

/-- Lodash `get(options, 'field[i]', d)` on an optional array field: the
element at index `i` when present, else the default `d`. -/
def lodashGet (arr : Option (List ℚ)) (i : Nat) (d : ℚ) : ℚ :=
  match arr with
  | none => d
  | some l => l.getD i d

/-- Lodash `isEmpty` on an optional array field: `undefined` and the empty
array are empty, a non-empty array is not. -/
def lodashIsEmpty (arr : Option (List ℚ)) : Bool :=
  match arr with
  | none => true
  | some l => l.isEmpty

/-! ## drawRectangle and drawSquare -/

/-- The options object of `drawRectangle`; an absent field is `none`. -/
structure IDrawRectangleOptions where
  x : Option ℚ := none
  y : Option ℚ := none
  width : Option ℚ := none
  height : Option ℚ := none
  borderWidth : Option ℚ := none
  colorRgb : Option (List ℚ) := none
  borderColorRgb : Option (List ℚ) := none
deriving DecidableEq, Repr

/-- The helper `drawRectangle(options)`: push state, filling RGB color from
`colorRgb` (each component defaulting to `0` via lodash `get`), stroking RGB
color from `borderColorRgb` likewise, line width `borderWidth || 15`,
rectangle `(x || 0, y || 0, width || 150, height || 100)`, then
fill-and-stroke / fill / stroke / close-path depending on which of
`colorRgb` and `borderColorRgb` is non-empty, then pop state. -/
def drawRectangle (options : IDrawRectangleOptions) : List PDFOp :=
  [ pushGraphicsState,
    fillingRgbColor
      (lodashGet options.colorRgb 0 0)
      (lodashGet options.colorRgb 1 0)
      (lodashGet options.colorRgb 2 0),
    strokingRgbColor
      (lodashGet options.borderColorRgb 0 0)
      (lodashGet options.borderColorRgb 1 0)
      (lodashGet options.borderColorRgb 2 0),
    lineWidth (jsOrNum options.borderWidth 15),
    rectangle
      (jsOrNum options.x 0)
      (jsOrNum options.y 0)
      (jsOrNum options.width 150)
      (jsOrNum options.height 100),
    if !lodashIsEmpty options.colorRgb && !lodashIsEmpty options.borderColorRgb then
      fillAndStroke
    else if !lodashIsEmpty options.colorRgb then
      fill
    else if !lodashIsEmpty options.borderColorRgb then
      stroke
    else
      closePath,
    popGraphicsState ]

/-- The options object of `drawSquare`; an absent field is `none`. -/
structure IDrawSquareOptions where
  x : Option ℚ := none
  y : Option ℚ := none
  size : Option ℚ := none
  borderWidth : Option ℚ := none
  colorRgb : Option (List ℚ) := none
  borderColorRgb : Option (List ℚ) := none
deriving DecidableEq, Repr

/-- The helper `drawSquare(options)`: delegates to `drawRectangle` with
`width` and `height` both `options.size || 100`, the remaining fields passed
through with their falsy defaults applied (`options.colorRgb || []` for the
color arrays, since an absent array is falsy while `[]` is truthy). -/
def drawSquare (options : IDrawSquareOptions) : List PDFOp :=
  drawRectangle
    { x := some (jsOrNum options.x 0),
      y := some (jsOrNum options.y 0),
      width := some (jsOrNum options.size 100),
      height := some (jsOrNum options.size 100),
      borderWidth := some (jsOrNum options.borderWidth 15),
      colorRgb := some (options.colorRgb.getD []),
      borderColorRgb := some (options.borderColorRgb.getD []) }

/-! ## Properties of PDFContentStream -/

/-- Length of the buffer threaded through the operator `reduce` step of
`copyBytesInto`. -/
theorem foldl_append_bytes_length (ops : List PDFOperator) (init : List Nat) :
    (ops.foldl (fun remaining op => remaining ++ op.bytes) init).length
      = init.length + (ops.map fun op => op.bytes.length).sum := by
  induction ops generalizing init with
  | nil => simp
  | cons op rest ih =>
    rw [List.foldl_cons, ih, List.length_append, List.map_cons, List.sum_cons]
    omega

/-- C1: for every content stream whose dictionary and operators each write
exactly the number of bytes their own `bytesSize` reports, the number of
bytes written by `copyBytesInto` equals `bytesSize()`. -/
theorem contentStream_write_length_eq_bytesSize (s : PDFContentStream)
    (hdict : s.dictionary.bytes.length = s.dictionary.size)
    (hops : ∀ op ∈ s.operators, op.bytes.length = op.size) :
    s.copyBytesInto.length = s.bytesSize := by
  unfold PDFContentStream.copyBytesInto PDFContentStream.bytesSize
  rw [List.length_append, foldl_append_bytes_length, List.length_append, hdict]
  have hsum : (s.operators.map fun op => op.bytes.length).sum
      = operatorsBytesSize s.operators := by
    unfold operatorsBytesSize
    congr 1
    exact List.map_congr_left hops
  rw [hsum]
  simp [streamDelimiterBytes, endstreamDelimiterBytes]

/-- Witness for C1 at a concrete stream: a two-byte dictionary and two
operators of sizes 1 and 2 that write exactly their reported bytes. -/
theorem contentStream_write_length_eq_bytesSize_witness :
    ((⟨2, [60, 62]⟩ : PDFDictionary).bytes.length = 2
        ∧ ∀ op ∈ [(⟨1, [65]⟩ : PDFOperator), ⟨2, [66, 67]⟩],
            op.bytes.length = op.size)
      ∧ (⟨⟨2, [60, 62]⟩, [⟨1, [65]⟩, ⟨2, [66, 67]⟩], 3⟩
          : PDFContentStream).copyBytesInto.length
        = (⟨⟨2, [60, 62]⟩, [⟨1, [65]⟩, ⟨2, [66, 67]⟩], 3⟩
          : PDFContentStream).bytesSize :=
  ⟨⟨by decide, by decide⟩,
    contentStream_write_length_eq_bytesSize _ (by decide) (by decide)⟩

/-- C7: `bytesSize()` decomposes as dictionary size, plus the 8 bytes of the
leading delimiters `"\n"` and `"stream\n"`, plus the total encoded size of
the operators, plus the 10 bytes of `"\nendstream"`. -/
theorem contentStream_bytesSize_decomposition (s : PDFContentStream) :
    s.bytesSize = s.dictionary.size + 8 + operatorsBytesSize s.operators + 10 := by
  unfold PDFContentStream.bytesSize
  omega

/-- One proxy-intercepted mutation always leaves `Length` equal to the
recomputed `operatorsBytesSize` of the current operator array. -/
theorem applyMutation_length_sync (s : PDFContentStream) (m : StreamMutation) :
    (applyMutation s m).lengthNumber
      = operatorsBytesSize (applyMutation s m).operators := by
  cases m <;> rfl

/-- A fold of mutations preserves the `Length` synchronization invariant. -/
theorem foldl_mutations_length_sync (muts : List StreamMutation)
    (s : PDFContentStream)
    (hbase : s.lengthNumber = operatorsBytesSize s.operators) :
    (muts.foldl applyMutation s).lengthNumber
      = operatorsBytesSize (muts.foldl applyMutation s).operators := by
  induction muts generalizing s with
  | nil => simpa using hbase
  | cons m rest ih =>
    rw [List.foldl_cons]
    exact ih _ (applyMutation_length_sync s m)

/-- C2: for a content stream obtained from the constructor, after any
sequence of element assignments and appends through the proxy, the `Length`
dictionary entry equals the sum of the byte sizes of the operators currently
in the sequence. -/
theorem contentStream_Length_reflects_operators
    (dictionary : PDFDictionary) (args : List JSValue) (s : PDFContentStream)
    (hconstruct : PDFContentStream.ofArgs dictionary args = .ok s)
    (muts : List StreamMutation) :
    (muts.foldl applyMutation s).lengthNumber
      = operatorsBytesSize (muts.foldl applyMutation s).operators := by
  have hbase : s.lengthNumber = operatorsBytesSize s.operators := by
    by_cases hall : args.all isOperatorOrOperatorArray = true
    · simp [PDFContentStream.ofArgs, validateArr, hall] at hconstruct
      rw [← hconstruct]
    · simp [PDFContentStream.ofArgs, validateArr, hall] at hconstruct
  exact foldl_mutations_length_sync muts s hbase

/-- Witness for C2: constructing from one operator and then appending and
overwriting operators leaves `Length` equal to the current operator sizes. -/
theorem contentStream_Length_reflects_operators_witness :
    PDFContentStream.ofArgs ⟨2, [60, 62]⟩ [.operator ⟨1, [65]⟩]
        = .ok ⟨⟨2, [60, 62]⟩, [⟨1, [65]⟩], 1⟩
      ∧ ([StreamMutation.push ⟨4, [66, 67, 68, 69]⟩,
          StreamMutation.setAt 0 ⟨2, [70, 71]⟩].foldl applyMutation
            ⟨⟨2, [60, 62]⟩, [⟨1, [65]⟩], 1⟩).lengthNumber
        = operatorsBytesSize
            ([StreamMutation.push ⟨4, [66, 67, 68, 69]⟩,
              StreamMutation.setAt 0 ⟨2, [70, 71]⟩].foldl applyMutation
                ⟨⟨2, [60, 62]⟩, [⟨1, [65]⟩], 1⟩).operators :=
  ⟨rfl, contentStream_Length_reflects_operators ⟨2, [60, 62]⟩
    [.operator ⟨1, [65]⟩] _ rfl _⟩

/-- Every element of a one-level flattening of operator-or-operator-array
values is a `PDFOperator` instance. -/
theorem flatten1_all_operators (args : List JSValue)
    (hargs : ∀ v ∈ args, isOperatorOrOperatorArray v = true) :
    ∀ v ∈ flatten1 args, isInstancePDFOperator v = true := by
  intro v hv
  unfold flatten1 at hv
  rw [List.mem_flatMap] at hv
  obtain ⟨u, hu, hvu⟩ := hv
  have hu2 := hargs u hu
  cases u with
  | operator op =>
    simp only [List.mem_singleton] at hvu
    subst hvu
    rfl
  | array l =>
    simp only at hvu
    have : l.all isInstancePDFOperator = true := by
      simpa [isOperatorOrOperatorArray, isInstancePDFOperator,
        isArrayOfPDFOperator] using hu2
    exact List.all_eq_true.mp this v hvu
  | other =>
    simp [isOperatorOrOperatorArray, isInstancePDFOperator,
      isArrayOfPDFOperator] at hu2

/-- On a list of `PDFOperator` instances, extracting the operators and
re-wrapping them reproduces the list: the extraction drops nothing. -/
theorem asOperators_map_operator (l : List JSValue)
    (hl : ∀ v ∈ l, isInstancePDFOperator v = true) :
    (asOperators l).map JSValue.operator = l := by
  induction l with
  | nil => rfl
  | cons v rest ih =>
    have hv := hl v (List.mem_cons_self v rest)
    cases v with
    | operator op =>
      have : asOperators (JSValue.operator op :: rest)
          = op :: asOperators rest := rfl
      rw [this, List.map_cons]
      rw [ih fun u hu => hl u (List.mem_cons_of_mem _ hu)]
    | array l2 => simp [isInstancePDFOperator] at hv
    | other => simp [isInstancePDFOperator] at hv

/-- C6: the `PDFContentStream` constructor throws the type-validation error
exactly when some variadic argument is neither a `PDFOperator` nor an array
of `PDFOperator`s; on valid arguments it succeeds, its operator sequence is
the one-level flattening of the arguments in order (nothing dropped or
reordered), and `Length` is initialized from that sequence. -/
theorem contentStream_ofArgs_validation
    (dictionary : PDFDictionary) (args : List JSValue) :
    ((∃ v ∈ args, isInstancePDFOperator v = false
        ∧ isArrayOfPDFOperator v = false) →
      PDFContentStream.ofArgs dictionary args =
        .error "PDFContentStream requires PDFOperators or PDFOperator[]s to be constructed.")
    ∧ ((∀ v ∈ args, isInstancePDFOperator v = true
        ∨ isArrayOfPDFOperator v = true) →
      PDFContentStream.ofArgs dictionary args =
        .ok { dictionary := dictionary,
              operators := asOperators (flatten1 args),
              lengthNumber := operatorsBytesSize (asOperators (flatten1 args)) }
      ∧ (asOperators (flatten1 args)).map JSValue.operator = flatten1 args) := by
  constructor
  · rintro ⟨v, hv, h1, h2⟩
    have hall : args.all isOperatorOrOperatorArray = false := by
      rw [List.all_eq_false]
      exact ⟨v, hv, by simp [isOperatorOrOperatorArray, h1, h2]⟩
    simp [PDFContentStream.ofArgs, validateArr, hall]
  · intro hvalid
    have hall : args.all isOperatorOrOperatorArray = true := by
      rw [List.all_eq_true]
      intro v hv
      rcases hvalid v hv with h | h <;>
        simp [isOperatorOrOperatorArray, h]
    refine ⟨by simp [PDFContentStream.ofArgs, validateArr, hall], ?_⟩
    refine asOperators_map_operator _ (flatten1_all_operators args ?_)
    exact List.all_eq_true.mp hall

/-- Witness for C6: a mixed valid argument list (one operator and one array
of operators) constructs successfully with the flattened sequence, and a
list containing a non-operator value is rejected. -/
theorem contentStream_ofArgs_validation_witness :
    (PDFContentStream.ofArgs ⟨2, [60, 62]⟩
        [.operator ⟨1, [65]⟩, .array [.operator ⟨2, [66, 67]⟩]] =
      .ok { dictionary := ⟨2, [60, 62]⟩,
            operators := [⟨1, [65]⟩, ⟨2, [66, 67]⟩],
            lengthNumber := 3 })
    ∧ PDFContentStream.ofArgs ⟨2, [60, 62]⟩ [.other] =
        .error "PDFContentStream requires PDFOperators or PDFOperator[]s to be constructed." :=
  ⟨((contentStream_ofArgs_validation ⟨2, [60, 62]⟩
      [.operator ⟨1, [65]⟩, .array [.operator ⟨2, [66, 67]⟩]]).2
    (by decide)).1,
   (contentStream_ofArgs_validation ⟨2, [60, 62]⟩ [.other]).1
     ⟨.other, List.mem_singleton.mpr rfl, rfl, rfl⟩⟩

/-! ## Properties of drawRectangle and drawSquare -/

/-- Recognizer of a fill-color operator (`rg`). -/
def isFillColorOp : PDFOp → Bool
  | .rg _ _ _ => true
  | _ => false

/-- Recognizer of a stroke-color operator (`RG`). -/
def isStrokeColorOp : PDFOp → Bool
  | .RG _ _ _ => true
  | _ => false

/-- C3: the paint operator emitted at the sixth position of `drawRectangle`
is fill-and-stroke `B` when both colors are non-empty, fill `f` when only
`colorRgb` is, stroke `S` when only `borderColorRgb` is, and path-close `h`
when both are absent or empty. -/
theorem drawRectangle_paint_operator (options : IDrawRectangleOptions) :
    ((lodashIsEmpty options.colorRgb = false
        ∧ lodashIsEmpty options.borderColorRgb = false) →
      (drawRectangle options)[5]? = some fillAndStroke)
    ∧ ((lodashIsEmpty options.colorRgb = false
        ∧ lodashIsEmpty options.borderColorRgb = true) →
      (drawRectangle options)[5]? = some fill)
    ∧ ((lodashIsEmpty options.colorRgb = true
        ∧ lodashIsEmpty options.borderColorRgb = false) →
      (drawRectangle options)[5]? = some stroke)
    ∧ ((lodashIsEmpty options.colorRgb = true
        ∧ lodashIsEmpty options.borderColorRgb = true) →
      (drawRectangle options)[5]? = some closePath) := by
  refine ⟨?_, ?_, ?_, ?_⟩ <;> rintro ⟨h1, h2⟩ <;> simp [drawRectangle, h1, h2]

/-- Witness for C3: with both colors supplied the sixth operator is
fill-and-stroke `B`. -/
theorem drawRectangle_paint_operator_witness :
    (drawRectangle
        { colorRgb := some [1, 0, 0],
          borderColorRgb := some [0, 1, 0] })[5]? = some fillAndStroke :=
  (drawRectangle_paint_operator
    { colorRgb := some [1, 0, 0], borderColorRgb := some [0, 1, 0] }).1
    ⟨rfl, rfl⟩

/-- C4: with no explicit options (and likewise with explicitly empty color
arrays) `drawRectangle` returns exactly push-state, fill color `(0,0,0)`,
stroke color `(0,0,0)`, line width `15`, rectangle `(0,0,150,100)`,
path-close, pop-state. -/
theorem drawRectangle_default_sequence :
    drawRectangle {} =
      [pushGraphicsState, fillingRgbColor 0 0 0, strokingRgbColor 0 0 0,
        lineWidth 15, rectangle 0 0 150 100, closePath, popGraphicsState]
    ∧ drawRectangle { colorRgb := some [], borderColorRgb := some [] } =
      [pushGraphicsState, fillingRgbColor 0 0 0, strokingRgbColor 0 0 0,
        lineWidth 15, rectangle 0 0 150 100, closePath, popGraphicsState] := by
  constructor <;> decide

/-- C5 counterexample: with `colorRgb` (and `borderColorRgb`) not supplied,
the sequence returned by `drawRectangle` nevertheless contains a fill-color
operator and a stroke-color operator (the black defaults), refuting the
claim that absence of a color suppresses the color operator. -/
theorem drawRectangle_absent_color_counterexample :
    ((drawRectangle {}).any isFillColorOp = true
      ∧ (drawRectangle {}).any isStrokeColorOp = true)
    ∧ ({} : IDrawRectangleOptions).colorRgb = none
    ∧ ({} : IDrawRectangleOptions).borderColorRgb = none := by
  decide

/-- C5 amended: when `colorRgb` is not supplied the sequence still contains
exactly one fill-color operator, the black `rg 0 0 0` in the second
position, and likewise a black `RG 0 0 0` in the third position when
`borderColorRgb` is not supplied; absence of a color affects only the paint
operator. -/
theorem drawRectangle_absent_color_emits_black
    (options : IDrawRectangleOptions) :
    (options.colorRgb = none →
      (drawRectangle options)[1]? = some (fillingRgbColor 0 0 0)
      ∧ ((drawRectangle options).filter isFillColorOp).length = 1)
    ∧ (options.borderColorRgb = none →
      (drawRectangle options)[2]? = some (strokingRgbColor 0 0 0)
      ∧ ((drawRectangle options).filter isStrokeColorOp).length = 1) := by
  constructor
  · intro hc
    constructor
    · simp [drawRectangle, hc, lodashGet]
    · rcases hb : options.borderColorRgb with _ | l
      · simp [drawRectangle, hc, hb, lodashIsEmpty, lodashGet,
          isFillColorOp, pushGraphicsState, fillingRgbColor,
          strokingRgbColor, lineWidth, rectangle, closePath, stroke,
          popGraphicsState]
      · rcases l with _ | ⟨a, l2⟩ <;>
          simp [drawRectangle, hc, hb, lodashIsEmpty, lodashGet,
            isFillColorOp, pushGraphicsState, fillingRgbColor,
            strokingRgbColor, lineWidth, rectangle, closePath, stroke,
            popGraphicsState]
  · intro hb
    constructor
    · simp [drawRectangle, hb, lodashGet]
    · rcases hc : options.colorRgb with _ | l
      · simp [drawRectangle, hc, hb, lodashIsEmpty, lodashGet,
          isStrokeColorOp, pushGraphicsState, fillingRgbColor,
          strokingRgbColor, lineWidth, rectangle, closePath, fill,
          popGraphicsState]
      · rcases l with _ | ⟨a, l2⟩ <;>
          simp [drawRectangle, hc, hb, lodashIsEmpty, lodashGet,
            isStrokeColorOp, pushGraphicsState, fillingRgbColor,
            strokingRgbColor, lineWidth, rectangle, closePath, fill,
            popGraphicsState]

/-- Witness for the amended C5 at the empty options object. -/
theorem drawRectangle_absent_color_emits_black_witness :
    ((drawRectangle {})[1]? = some (fillingRgbColor 0 0 0)
      ∧ ((drawRectangle {}).filter isFillColorOp).length = 1)
    ∧ ((drawRectangle {})[2]? = some (strokingRgbColor 0 0 0)
      ∧ ((drawRectangle {}).filter isStrokeColorOp).length = 1) :=
  ⟨(drawRectangle_absent_color_emits_black {}).1 rfl,
   (drawRectangle_absent_color_emits_black {}).2 rfl⟩

/-- C8: a supplied numeric option equal to `0` behaves exactly like an
absent option for `width`, `height` and `borderWidth` (falsy coercion
through `||`), so `width: 0` yields a rectangle of width `150`, `height: 0`
one of height `100`, and `borderWidth: 0` a line width of `15`. -/
theorem drawRectangle_zero_option_as_absent
    (options : IDrawRectangleOptions) :
    drawRectangle { options with width := some 0 }
        = drawRectangle { options with width := none }
    ∧ drawRectangle { options with height := some 0 }
        = drawRectangle { options with height := none }
    ∧ drawRectangle { options with borderWidth := some 0 }
        = drawRectangle { options with borderWidth := none }
    ∧ (drawRectangle { width := some 0 })[4]? = some (rectangle 0 0 150 100)
    ∧ (drawRectangle { height := some 0 })[4]? = some (rectangle 0 0 150 100)
    ∧ (drawRectangle { borderWidth := some 0 })[3]? = some (lineWidth 15) := by
  refine ⟨?_, ?_, ?_, by decide, by decide, by decide⟩ <;>
    simp [drawRectangle, jsOrNum]

/-- C9: every call of `drawRectangle` returns exactly 7 operators, the first
being push-graphics-state `q` and the last pop-graphics-state `Q`. -/
theorem drawRectangle_seven_ops_state_bracketed
    (options : IDrawRectangleOptions) :
    (drawRectangle options).length = 7
    ∧ (drawRectangle options).head? = some pushGraphicsState
    ∧ (drawRectangle options).getLast? = some popGraphicsState := by
  refine ⟨rfl, rfl, ?_⟩
  simp [drawRectangle]

/-- Absorption of the repeated falsy default: applying `x || d` to a value
that is already of the form `x || d` changes nothing. -/
theorem jsOrNum_absorb (v : Option ℚ) (d : ℚ) :
    jsOrNum (some (jsOrNum v d)) d = jsOrNum v d := by
  rcases v with _ | x
  · by_cases hd : d = 0 <;> simp [jsOrNum, hd]
  · by_cases hx : x = 0 <;> by_cases hd : d = 0 <;> simp [jsOrNum, hx, hd]

/-- Lodash `get` does not distinguish an absent array from an explicitly
empty one, so pre-applying `arr || []` changes nothing. -/
theorem lodashGet_orEmpty (arr : Option (List ℚ)) (i : Nat) (d : ℚ) :
    lodashGet (some (arr.getD [])) i d = lodashGet arr i d := by
  rcases arr with _ | l <;> rfl

/-- Lodash `isEmpty` does not distinguish an absent array from an explicitly
empty one, so pre-applying `arr || []` changes nothing. -/
theorem lodashIsEmpty_orEmpty (arr : Option (List ℚ)) :
    lodashIsEmpty (some (arr.getD [])) = lodashIsEmpty arr := by
  rcases arr with _ | l <;> rfl

/-- C10: `drawSquare` returns exactly what `drawRectangle` returns on the
same `x`, `y`, `borderWidth` and colors, with `width` and `height` both
equal to `size || 100`; and `square(x, y, s)` is `rectangle(x, y, s, s)`. -/
theorem drawSquare_delegates_to_drawRectangle
    (options : IDrawSquareOptions) :
    drawSquare options =
      drawRectangle
        { x := options.x, y := options.y,
          width := some (jsOrNum options.size 100),
          height := some (jsOrNum options.size 100),
          borderWidth := options.borderWidth,
          colorRgb := options.colorRgb,
          borderColorRgb := options.borderColorRgb }
    ∧ ∀ x y s : ℚ, square x y s = rectangle x y s s := by
  refine ⟨?_, fun _ _ _ => rfl⟩
  simp [drawSquare, drawRectangle, jsOrNum_absorb, lodashGet_orEmpty,
    lodashIsEmpty_orEmpty]

end PdfLib
